import Mathlib

/-!
Verification of the Cisco IOS-XR router shell driver.

Part 1 models the session bring-up protocol engine: the step list comes
from `CiscoIOSXRCliHandler.on_session_start` in
`src/package/cloudshell/networking/cisco/iosxr/cli/cisco_iosxr_cli_handler.py`;
the command-mode model and the sequencer that executes the steps live in
the external `cloudshell` CLI library and are modelled from the spec.

Part 2 models the argument marshalling of `CiscoIOSXRResourceDriver` in
`src/src/driver.py`: falsy-default substitution and the `_cli` attribute
lifecycle.
-/

/-- Modelled from the spec: the Command Mode Model is "a small directed
graph of named modes (e.g., user, enable/privileged, config)", here the
linear chain user → enable → config used by the Cisco handler. -/
inductive CommandMode where
  | modeUser
  | modeEnable
  | modeConfig
  deriving DecidableEq, Repr

/-- Modelled from the spec: each mode is "identified by a distinct prompt
pattern (regular expression or literal suffix)".  The literal IOS-XR-style
suffixes stand in for the PROMPT regex constants of the external
`cisco_command_modes` module, which is not part of this repository. -/
def promptPattern : CommandMode → String
  | .modeUser => ">"
  | .modeEnable => "#"
  | .modeConfig => "(config)#"

/-- Modelled from the spec: `matches(output, mode)` "returns true if the
given captured output ends with (or contains, policy-configurable) the
mode's prompt pattern"; this model uses the ends-with policy, as a
suffix test on the character lists. -/
def modeMatches (output : String) (mode : CommandMode) : Bool :=
  (promptPattern mode).data.isSuffixOf output.data

/-- A `BringUpStep` pairs the literal command text with the mode whose
prompt must appear in the response (spec §3). -/
structure BringUpStep where
  commandText : String
  expectedMode : CommandMode
  deriving DecidableEq, Repr

/-- Modelled from the spec: the outcome of one blocking
`readUntil(pattern, timeout)` call on the channel — captured text on a
match, or a timeout / caller cancellation / transport failure. -/
inductive StepResponse where
  | captured (s : String)
  | timedOut
  | cancelled
  | channelError
  deriving DecidableEq, Repr

/-- Modelled from the spec's error taxonomy (§7): why a bring-up failed,
with `Cancelled` distinguished from timeout. -/
inductive FailReason where
  | timeout
  | cancelled
  | channelError
  deriving DecidableEq, Repr

/-- The session state (spec §3): the mode believed active, plus the log of
commands sent so far, which makes the ordering claims statable. -/
structure Session where
  currentMode : CommandMode
  sent : List String
  deriving DecidableEq, Repr

/-- The sequencer's terminal states (spec §4.2):
`Completed` or `Failed(stepIndex, reason)`, each carrying the session. -/
inductive BringUpResult where
  | completed (sess : Session)
  | failed (sess : Session) (stepIndex : Nat) (reason : FailReason)
  deriving DecidableEq, Repr

/-- The session carried by a terminal sequencer state. -/
def BringUpResult.session : BringUpResult → Session
  | .completed s => s
  | .failed s _ _ => s

/-- Modelled from the spec (§4.2): for each step in order, send
`commandText`, then block reading until the expected prompt matches or
the read fails; on match update `currentMode` and continue, on timeout,
cancellation or channel error fail the whole sequence with the step's
index — no recovery, no retry.  `chan i` is the outcome of the read
performed for the i-th step (the channel response stream). -/
def runSteps (chan : Nat → StepResponse) : Session → List BringUpStep → Nat → BringUpResult
  | sess, [], _ => .completed sess
  | sess, step :: rest, i =>
    match chan i with
    | .captured s =>
      if modeMatches s step.expectedMode then
        runSteps chan ⟨step.expectedMode, sess.sent ++ [step.commandText]⟩ rest (i + 1)
      else
        .failed ⟨sess.currentMode, sess.sent ++ [step.commandText]⟩ i .timeout
    | .timedOut => .failed ⟨sess.currentMode, sess.sent ++ [step.commandText]⟩ i .timeout
    | .cancelled => .failed ⟨sess.currentMode, sess.sent ++ [step.commandText]⟩ i .cancelled
    | .channelError => .failed ⟨sess.currentMode, sess.sent ++ [step.commandText]⟩ i .channelError

/-- Modelled from the spec: the single entry point
`bringUp(session, steps)` of the Bring-Up Sequencer. -/
def bringUp (chan : Nat → StepResponse) (sess : Session) (steps : List BringUpStep) : BringUpResult :=
  runSteps chan sess steps 0

/-- The bring-up step list of `CiscoIOSXRCliHandler.on_session_start`
(cisco_iosxr_cli_handler.py lines 18-24): `_enter_enable_mode` and
`_enter_config_mode` are rendered as the spec's generalized steps
"enter-enable" and "enter-config", the five `hardware_expect` calls as
their literal commands with the prompt of the mode they expect. -/
def onSessionStartSteps : List BringUpStep :=
  [ ⟨"enter-enable", .modeEnable⟩,
    ⟨"terminal length 0", .modeEnable⟩,
    ⟨"terminal width 300", .modeEnable⟩,
    ⟨"enter-config", .modeConfig⟩,
    ⟨"no logging console", .modeConfig⟩,
    ⟨"commit", .modeConfig⟩,
    ⟨"exit", .modeEnable⟩ ]

/-- The mode in effect after executing a list of steps successfully,
starting from `init` (the last step's expected mode, or `init` if none). -/
def finalMode (init : CommandMode) (steps : List BringUpStep) : CommandMode :=
  steps.foldl (fun _ st => st.expectedMode) init

/-- The read for step `step` at stream position `i` completed with output
matching the step's expected prompt. -/
def stepOk (chan : Nat → StepResponse) (step : BringUpStep) (i : Nat) : Bool :=
  match chan i with
  | .captured s => modeMatches s step.expectedMode
  | _ => false

/-- A fresh session as the sequencer receives it: assumed initial mode,
nothing sent yet. -/
def initSession : Session := ⟨.modeUser, []⟩

/-- A channel that answers every read with an IOS-XR config prompt, which
ends with both the config prompt and the enable prompt suffix. -/
def echoChan : Nat → StepResponse := fun _ => .captured "RP/0/RSP0/CPU0:ios(config)#"

/-! ### Part 2: the driver (`src/src/driver.py`) -/

/-- The slice of `NetworkingResourceConfig` the driver's marshalling
reads: the resource-level default VRF name. -/
structure NetworkingResourceConfig where
  vrf_management_name : String
  deriving DecidableEq, Repr

/-- The CLI object built by `initialize` (`CiscoIOSXRCli(resource_config)`,
driver.py line 55); its behaviour lives in the external library, the
driver only stores it and calls `get_cli_handler` on it. -/
structure CiscoIOSXRCli where
  resource_config : NetworkingResourceConfig
  deriving DecidableEq, Repr

/-- The driver instance state: `__init__` (driver.py lines 45-47) sets
`self._cli = None`; `initialize` assigns it. -/
structure DriverState where
  _cli : Option CiscoIOSXRCli
  deriving DecidableEq, Repr

/-- Python's `x or default` for an optional string argument: `None` and
the empty string are falsy and are replaced by the default. -/
def pyOr : Option String → String → String
  | none, d => d
  | some s, d => if s = "" then d else s

/-- Dereferencing `self._cli` when it is still `None` raises
`AttributeError: 'NoneType' object has no attribute ...`. -/
inductive DriverError where
  | attributeErrorNoneType
  deriving DecidableEq, Repr

/-- Arguments the driver passes to `configuration_flow.save`
(driver.py lines 193-197). -/
structure FlowSaveCall where
  folder_path : String
  configuration_type : String
  vrf_management_name : String
  deriving DecidableEq, Repr

/-- Arguments the driver passes to `configuration_flow.restore`
(driver.py lines 232-237). -/
structure FlowRestoreCall where
  path : String
  restore_method : String
  configuration_type : String
  vrf_management_name : String
  deriving DecidableEq, Repr

/-- Arguments the driver passes to `send_command_operations.run_custom_command`
(driver.py lines 106-108). -/
structure RunCommandCall where
  custom_command : String
  deriving DecidableEq, Repr

/-- Arguments the driver passes to `apply_connectivity`
(driver.py line 159). -/
structure ConnectivityCall where
  request : String
  deriving DecidableEq, Repr

/-- Arguments the driver passes to `configuration_flow.orchestration_save`
(driver.py lines 260-262). -/
structure OrchestrationSaveCall where
  mode : String
  custom_params : String
  deriving DecidableEq, Repr

/-- The saved-artifact payload `orchestration_restore` parses and forwards
to `configuration_flow.restore` (driver.py lines 291-296). -/
structure OrchestrationRestoreCall where
  saved_artifact_info : String
  deriving DecidableEq, Repr

/-- Arguments the driver passes to the firmware flow
(driver.py lines 322-329). -/
structure LoadFirmwareCall where
  path : String
  features_to_install : String
  vrf_management_name : String
  deriving DecidableEq, Repr

/-- The OS patterns `get_inventory` hands to `autoload_operations.discover`
(driver.py lines 42, 82). -/
structure AutoloadCall where
  supported_os : List String
  deriving DecidableEq, Repr

namespace CiscoIOSXRResourceDriver

/-- `SUPPORTED_OS` class constant (driver.py line 42). -/
def SUPPORTED_OS : List String := ["IOS[ -]?XR|IOSXR"]

/-- `__init__` (driver.py lines 45-47): `self._cli = None`. -/
def init : DriverState := ⟨none⟩

/-- `initialize` (driver.py lines 49-56): builds the resource config from
the context, stores `CiscoIOSXRCli(resource_config)` in `self._cli` and
returns the literal string. -/
def initializeCmd (_st : DriverState) (rc : NetworkingResourceConfig) : DriverState × String :=
  (⟨some ⟨rc⟩⟩, "Finished initializing")

/-- `get_inventory` (driver.py lines 58-85): dereferences `self._cli`
(line 70) before any device interaction, then delegates discovery. -/
def get_inventory (st : DriverState) (_rc : NetworkingResourceConfig) :
    Except DriverError (DriverState × AutoloadCall) :=
  match st._cli with
  | none => .error .attributeErrorNoneType
  | some _ => .ok (st, ⟨SUPPORTED_OS⟩)

/-- `run_custom_command` (driver.py lines 87-111). -/
def run_custom_command (st : DriverState) (_rc : NetworkingResourceConfig)
    (custom_command : String) : Except DriverError (DriverState × RunCommandCall) :=
  match st._cli with
  | none => .error .attributeErrorNoneType
  | some _ => .ok (st, ⟨custom_command⟩)

/-- `run_custom_config_command` (driver.py lines 113-136). -/
def run_custom_config_command (st : DriverState) (_rc : NetworkingResourceConfig)
    (custom_command : String) : Except DriverError (DriverState × RunCommandCall) :=
  match st._cli with
  | none => .error .attributeErrorNoneType
  | some _ => .ok (st, ⟨custom_command⟩)

/-- `ApplyConnectivityChanges` (driver.py lines 138-164). -/
def ApplyConnectivityChanges (st : DriverState) (_rc : NetworkingResourceConfig)
    (request : String) : Except DriverError (DriverState × ConnectivityCall) :=
  match st._cli with
  | none => .error .attributeErrorNoneType
  | some _ => .ok (st, ⟨request⟩)

/-- `save` (driver.py lines 166-200): substitutes `"running"` for a falsy
`configuration_type` and the resource default for a falsy
`vrf_management_name` (lines 183-186), then dereferences `self._cli`
(line 188) and delegates to `configuration_flow.save`. -/
def save (st : DriverState) (rc : NetworkingResourceConfig) (folder_path : String)
    (configuration_type : Option String) (vrf_management_name : Option String) :
    Except DriverError (DriverState × FlowSaveCall) :=
  let configuration_type := pyOr configuration_type "running"
  let vrf_management_name := pyOr vrf_management_name rc.vrf_management_name
  match st._cli with
  | none => .error .attributeErrorNoneType
  | some _ => .ok (st, ⟨folder_path, configuration_type, vrf_management_name⟩)

/-- `restore` (driver.py lines 202-239): substitutes `"running"` for a
falsy `configuration_type`, `"override"` for a falsy `restore_method`
and the resource default for a falsy `vrf_management_name`
(lines 221-225), then dereferences `self._cli` (line 227). -/
def restore (st : DriverState) (rc : NetworkingResourceConfig) (path : String)
    (configuration_type : Option String) (restore_method : Option String)
    (vrf_management_name : Option String) :
    Except DriverError (DriverState × FlowRestoreCall) :=
  let configuration_type := pyOr configuration_type "running"
  let restore_method := pyOr restore_method "override"
  let vrf_management_name := pyOr vrf_management_name rc.vrf_management_name
  match st._cli with
  | none => .error .attributeErrorNoneType
  | some _ => .ok (st, ⟨path, restore_method, configuration_type, vrf_management_name⟩)

/-- `orchestration_save` (driver.py lines 241-269): substitutes
`"shallow"` for a falsy `mode` (line 253), then dereferences `self._cli`
(line 255). -/
def orchestration_save (st : DriverState) (_rc : NetworkingResourceConfig)
    (mode : Option String) (custom_params : String) :
    Except DriverError (DriverState × OrchestrationSaveCall) :=
  let mode := pyOr mode "shallow"
  match st._cli with
  | none => .error .attributeErrorNoneType
  | some _ => .ok (st, ⟨mode, custom_params⟩)

/-- `orchestration_restore` (driver.py lines 271-297). -/
def orchestration_restore (st : DriverState) (_rc : NetworkingResourceConfig)
    (saved_artifact_info : String) (_custom_params : String) :
    Except DriverError (DriverState × OrchestrationRestoreCall) :=
  match st._cli with
  | none => .error .attributeErrorNoneType
  | some _ => .ok (st, ⟨saved_artifact_info⟩)

/-- `load_firmware` (driver.py lines 299-330): substitutes the resource
default for a falsy `vrf_management_name` (lines 317-319), then
dereferences `self._cli` (line 320). -/
def load_firmware (st : DriverState) (rc : NetworkingResourceConfig) (path : String)
    (features_to_install : String) (vrf_management_name : Option String) :
    Except DriverError (DriverState × LoadFirmwareCall) :=
  let vrf_management_name := pyOr vrf_management_name rc.vrf_management_name
  match st._cli with
  | none => .error .attributeErrorNoneType
  | some _ => .ok (st, ⟨path, features_to_install, vrf_management_name⟩)

/-- `health_check` (driver.py lines 332-356). -/
def health_check (st : DriverState) (_rc : NetworkingResourceConfig) :
    Except DriverError (DriverState × Unit) :=
  match st._cli with
  | none => .error .attributeErrorNoneType
  | some _ => .ok (st, ())

/-- `shutdown` (driver.py lines 361-381). -/
def shutdown (st : DriverState) (_rc : NetworkingResourceConfig) :
    Except DriverError (DriverState × Unit) :=
  match st._cli with
  | none => .error .attributeErrorNoneType
  | some _ => .ok (st, ())

end CiscoIOSXRResourceDriver

/-! ### Remaining definitions used by the statements -/

/-- How a single read outcome fails a step expecting `mode`, if it does:
captured output that matches the prompt is a success (`none`); captured
output without the prompt means the prompt never appeared within the
read, i.e. a timeout; the other outcomes map to their reasons. -/
def readFailure : StepResponse → CommandMode → Option FailReason
  | .captured s, mode => if modeMatches s mode then none else some .timeout
  | .timedOut, _ => some .timeout
  | .cancelled, _ => some .cancelled
  | .channelError, _ => some .channelError

/-- Modelled from the spec: `matches(output, mode)` as it is invoked
against a live session — "No side effects; pure lookup": the call
returns the boolean verdict and hands the session back untouched. -/
def matchesCall (sess : Session) (output : String) (mode : CommandMode) : Bool × Session :=
  (modeMatches output mode, sess)

/-- A channel whose read for step index 2 times out and that answers
every other read with a matching prompt. -/
def timeoutAt2Chan : Nat → StepResponse :=
  fun i => if i = 2 then .timedOut else .captured "RP/0/RSP0/CPU0:ios(config)#"

/-- A channel cancelled by the caller while blocked on step index 1's
read, answering every other read with a matching prompt. -/
def cancelAt1Chan : Nat → StepResponse :=
  fun i => if i = 1 then .cancelled else .captured "RP/0/RSP0/CPU0:ios(config)#"

/-! ### Sequencer lemmas -/

/-- A step whose read is `stepOk` received captured output matching the
expected prompt. -/
theorem stepOk_elim {chan : Nat → StepResponse} {step : BringUpStep} {i : Nat}
    (h : stepOk chan step i = true) :
    ∃ s, chan i = .captured s ∧ modeMatches s step.expectedMode = true := by
  unfold stepOk at h
  cases hc : chan i <;> rw [hc] at h
  · exact ⟨_, rfl, h⟩
  all_goals cases h

/-- A step whose read is not `stepOk` fails for one of the three reasons. -/
theorem stepOk_false (chan : Nat → StepResponse) (step : BringUpStep) (i : Nat)
    (h : stepOk chan step i = false) :
    ∃ r, readFailure (chan i) step.expectedMode = some r := by
  cases hc : chan i with
  | captured s =>
    have hm : modeMatches s step.expectedMode = false := by
      unfold stepOk at h; rw [hc] at h; simpa using h
    exact ⟨.timeout, by simp [readFailure, hm]⟩
  | timedOut => exact ⟨.timeout, by simp [readFailure]⟩
  | cancelled => exact ⟨.cancelled, by simp [readFailure]⟩
  | channelError => exact ⟨.channelError, by simp [readFailure]⟩

/-- If every step's read matches its expected prompt, the sequencer
completes, sending every command in list order and ending in the last
step's mode. -/
theorem runSteps_all_ok (steps : List BringUpStep) (chan : Nat → StepResponse) :
    ∀ (sess : Session) (i : Nat),
      (∀ j, j < steps.length → ∃ st, steps[j]? = some st ∧ stepOk chan st (i + j) = true) →
      runSteps chan sess steps i =
        .completed ⟨finalMode sess.currentMode steps,
          sess.sent ++ steps.map BringUpStep.commandText⟩ := by
  induction steps with
  | nil => intro sess i _; simp [runSteps, finalMode]
  | cons step rest ih =>
    intro sess i h
    obtain ⟨st, hst, hok⟩ := h 0 (by simp)
    rw [Nat.add_zero] at hok
    simp only [List.getElem?_cons_zero, Option.some.injEq] at hst
    subst hst
    obtain ⟨s, hc, hm⟩ := stepOk_elim hok
    have hrest : ∀ j, j < rest.length →
        ∃ st, rest[j]? = some st ∧ stepOk chan st (i + 1 + j) = true := by
      intro j hj
      obtain ⟨st, h1, h2⟩ := h (j + 1) (by simpa using Nat.succ_lt_succ hj)
      refine ⟨st, by simpa using h1, ?_⟩
      have hidx : i + (j + 1) = i + 1 + j := by omega
      rwa [hidx] at h2
    simp only [runSteps, hc, hm, if_true]
    rw [ih ⟨step.expectedMode, sess.sent ++ [step.commandText]⟩ (i + 1) hrest]
    simp [finalMode, List.append_assoc]

/-- If steps before index `k` all match and the read for step `k` fails
with reason `r`, the sequencer aborts at step `k` with reason `r`: the
mode is the one in effect after step `k - 1` and the commands sent are
exactly those of steps `0 .. k` (the failing step's own command was sent
before its read). -/
theorem runSteps_fails (steps : List BringUpStep) (chan : Nat → StepResponse) :
    ∀ (sess : Session) (i k : Nat) (stk : BringUpStep) (r : FailReason),
      (∀ j, j < k → ∃ st, steps[j]? = some st ∧ stepOk chan st (i + j) = true) →
      steps[k]? = some stk →
      readFailure (chan (i + k)) stk.expectedMode = some r →
      runSteps chan sess steps i =
        .failed ⟨finalMode sess.currentMode (steps.take k),
          sess.sent ++ (steps.take (k + 1)).map BringUpStep.commandText⟩ (i + k) r := by
  induction steps with
  | nil => intro sess i k stk r _ hk _; simp at hk
  | cons step rest ih =>
    intro sess i k stk r hbef hk hr
    cases k with
    | zero =>
      simp only [List.getElem?_cons_zero, Option.some.injEq] at hk
      subst hk
      rw [Nat.add_zero] at hr ⊢
      cases hc : chan i with
      | captured s =>
        rw [hc] at hr
        cases hmm : modeMatches s step.expectedMode with
        | true => exfalso; simp [readFailure, hmm] at hr
        | false =>
          have hrr : r = FailReason.timeout := by
            simp [readFailure, hmm] at hr
            exact hr.symm
          subst hrr
          simp [runSteps, hc, hmm, finalMode]
      | timedOut =>
        rw [hc] at hr
        have hrr : r = FailReason.timeout := by
          simp [readFailure] at hr
          exact hr.symm
        subst hrr
        simp [runSteps, hc, finalMode]
      | cancelled =>
        rw [hc] at hr
        have hrr : r = FailReason.cancelled := by
          simp [readFailure] at hr
          exact hr.symm
        subst hrr
        simp [runSteps, hc, finalMode]
      | channelError =>
        rw [hc] at hr
        have hrr : r = FailReason.channelError := by
          simp [readFailure] at hr
          exact hr.symm
        subst hrr
        simp [runSteps, hc, finalMode]
    | succ k1 =>
      obtain ⟨st, hst, hok⟩ := hbef 0 (Nat.succ_pos _)
      rw [Nat.add_zero] at hok
      simp only [List.getElem?_cons_zero, Option.some.injEq] at hst
      subst hst
      obtain ⟨s, hc, hm⟩ := stepOk_elim hok
      have hbef1 : ∀ j, j < k1 → ∃ st, rest[j]? = some st ∧ stepOk chan st (i + 1 + j) = true := by
        intro j hj
        obtain ⟨st, h1, h2⟩ := hbef (j + 1) (Nat.succ_lt_succ hj)
        refine ⟨st, by simpa using h1, ?_⟩
        have hidx : i + (j + 1) = i + 1 + j := by omega
        rwa [hidx] at h2
      have hk1 : rest[k1]? = some stk := by simpa using hk
      have hr1 : readFailure (chan (i + 1 + k1)) stk.expectedMode = some r := by
        have hidx : i + (k1 + 1) = i + 1 + k1 := by omega
        rwa [hidx] at hr
      simp only [runSteps, hc, hm, if_true]
      rw [ih ⟨step.expectedMode, sess.sent ++ [step.commandText]⟩ (i + 1) k1 stk r hbef1 hk1 hr1]
      have hidx : i + 1 + k1 = i + (k1 + 1) := by omega
      simp [finalMode, List.append_assoc, hidx]

/-- The sent log of any run is the commands of an initial prefix of the
step list, in order, and every step strictly before the last command
sent had its expected prompt matched first. -/
theorem runSteps_sent_shape (steps : List BringUpStep) (chan : Nat → StepResponse) :
    ∀ (sess : Session) (i : Nat),
      ∃ m, m ≤ steps.length ∧
        (runSteps chan sess steps i).session.sent =
          sess.sent ++ (steps.take m).map BringUpStep.commandText ∧
        ∀ j, j + 1 < m → ∃ st, steps[j]? = some st ∧ stepOk chan st (i + j) = true := by
  induction steps with
  | nil =>
    intro sess i
    exact ⟨0, Nat.le_refl _, by simp [runSteps, BringUpResult.session], by omega⟩
  | cons step rest ih =>
    intro sess i
    cases hc : chan i with
    | captured s =>
      cases hmm : modeMatches s step.expectedMode with
      | true =>
        obtain ⟨m, hle, hsent, hok⟩ := ih ⟨step.expectedMode, sess.sent ++ [step.commandText]⟩ (i + 1)
        refine ⟨m + 1, Nat.succ_le_succ hle, ?_, ?_⟩
        · simp only [runSteps, hc, hmm, if_true]
          rw [hsent]
          simp [List.append_assoc]
        · intro j hj
          cases j with
          | zero =>
            refine ⟨step, by simp, ?_⟩
            rw [Nat.add_zero]
            unfold stepOk
            rw [hc]
            exact hmm
          | succ j1 =>
            obtain ⟨st, h1, h2⟩ := hok j1 (by omega)
            refine ⟨st, by simpa using h1, ?_⟩
            have hidx : i + 1 + j1 = i + (j1 + 1) := by omega
            rwa [hidx] at h2
      | false =>
        refine ⟨1, Nat.succ_le_succ (Nat.zero_le _), ?_, by omega⟩
        simp [runSteps, hc, hmm, BringUpResult.session]
    | timedOut =>
      refine ⟨1, Nat.succ_le_succ (Nat.zero_le _), ?_, by omega⟩
      simp [runSteps, hc, BringUpResult.session]
    | cancelled =>
      refine ⟨1, Nat.succ_le_succ (Nat.zero_le _), ?_, by omega⟩
      simp [runSteps, hc, BringUpResult.session]
    | channelError =>
      refine ⟨1, Nat.succ_le_succ (Nat.zero_le _), ?_, by omega⟩
      simp [runSteps, hc, BringUpResult.session]

/-- The sequencer's behaviour depends on the channel only through the
response stream: pointwise-equal streams give identical runs. -/
theorem runSteps_congr (steps : List BringUpStep) (chan1 chan2 : Nat → StepResponse)
    (h : ∀ n, chan1 n = chan2 n) :
    ∀ (sess : Session) (i : Nat), runSteps chan1 sess steps i = runSteps chan2 sess steps i := by
  induction steps with
  | nil => intro sess i; rfl
  | cons step rest ih =>
    intro sess i
    simp only [runSteps, h i]
    cases chan2 i with
    | captured s =>
      cases hmm : modeMatches s step.expectedMode with
      | true => simp only [hmm, if_true]; exact ih _ _
      | false => simp [hmm]
    | timedOut => rfl
    | cancelled => rfl
    | channelError => rfl

/-! ### Claim theorems: the bring-up sequencer -/

/-- C1: for the on_session_start step list, if the channel answers every
sent command with output matching the expected mode's prompt, bring-up
completes, the seven commands are sent in exactly the listed order, and
the session's final mode is `modeEnable`, the last step's expected mode. -/
theorem onSessionStart_happy_path (chan : Nat → StepResponse) (sess : Session)
    (hsent : sess.sent = [])
    (h : ∀ j, j < onSessionStartSteps.length →
      ∃ st, onSessionStartSteps[j]? = some st ∧ stepOk chan st j = true) :
    bringUp chan sess onSessionStartSteps =
      .completed ⟨.modeEnable,
        ["enter-enable", "terminal length 0", "terminal width 300", "enter-config",
         "no logging console", "commit", "exit"]⟩ := by
  have hr := runSteps_all_ok onSessionStartSteps chan sess 0 (by
    intro j hj
    obtain ⟨st, h1, h2⟩ := h j hj
    exact ⟨st, h1, by rwa [Nat.zero_add]⟩)
  rw [bringUp, hr, hsent]
  rfl

/-- Witness for C1 at the echoing channel and a fresh session. -/
theorem onSessionStart_happy_path_witness :
    bringUp echoChan initSession onSessionStartSteps =
      .completed ⟨.modeEnable,
        ["enter-enable", "terminal length 0", "terminal width 300", "enter-config",
         "no logging console", "commit", "exit"]⟩ :=
  onSessionStart_happy_path echoChan initSession rfl (by
    intro j hj
    have hj7 : j < 7 := by simpa [onSessionStartSteps] using hj
    interval_cases j <;> exact ⟨_, rfl, by decide⟩)

/-- C3: ordering — for every step list and every channel behaviour, the
sent log is the commands of an initial prefix of the step list, in list
order, and step `i + 1`'s command is sent only if step `i`'s expected
prompt matched the channel output first. -/
theorem sequencer_ordering (steps : List BringUpStep) (chan : Nat → StepResponse)
    (sess : Session) (hsent : sess.sent = []) :
    ∃ m, m ≤ steps.length ∧
      (bringUp chan sess steps).session.sent = (steps.take m).map BringUpStep.commandText ∧
      ∀ j, j + 1 < m → ∃ st, steps[j]? = some st ∧ stepOk chan st j = true := by
  obtain ⟨m, h1, h2, h3⟩ := runSteps_sent_shape steps chan sess 0
  rw [hsent] at h2
  refine ⟨m, h1, by simpa [bringUp] using h2, ?_⟩
  intro j hj
  obtain ⟨st, ha, hb⟩ := h3 j hj
  exact ⟨st, ha, by rwa [Nat.zero_add] at hb⟩

/-- Witness for C3 at the step-2-timeout channel and a fresh session. -/
theorem sequencer_ordering_witness :
    ∃ m, m ≤ onSessionStartSteps.length ∧
      (bringUp timeoutAt2Chan initSession onSessionStartSteps).session.sent =
        (onSessionStartSteps.take m).map BringUpStep.commandText ∧
      ∀ j, j + 1 < m →
        ∃ st, onSessionStartSteps[j]? = some st ∧ stepOk timeoutAt2Chan st j = true :=
  sequencer_ordering onSessionStartSteps timeoutAt2Chan initSession rfl

/-- C4 counterexample: with the on_session_start step list and a channel
whose read for step index 2 times out, bring-up fails with stepIndex 2,
but three commands — those of steps 0 and 1 plus the failing step's own
command — have been sent, not the two the claim asserts. -/
theorem timeout_sent_count_counterexample :
    bringUp timeoutAt2Chan initSession onSessionStartSteps =
      .failed ⟨.modeEnable, ["enter-enable", "terminal length 0", "terminal width 300"]⟩
        2 .timeout ∧
    ¬((bringUp timeoutAt2Chan initSession onSessionStartSteps).session.sent.length = 2) := by
  decide

/-- C4 (amended): if the steps before index k match and step k's read
times out, bring-up fails with stepIndex k and reason timeout, the
session keeps the mode in effect after step k-1, and the commands sent
are exactly those of steps 0..k — k+1 of them, the failing step's own
command included — so no later step's command is sent and no recovery is
attempted. -/
theorem timeout_all_or_nothing (steps : List BringUpStep) (chan : Nat → StepResponse)
    (sess : Session) (hsent : sess.sent = []) (k : Nat) (stk : BringUpStep)
    (hbef : ∀ j, j < k → ∃ st, steps[j]? = some st ∧ stepOk chan st j = true)
    (hk : steps[k]? = some stk) (hto : chan k = .timedOut) :
    bringUp chan sess steps =
      .failed ⟨finalMode sess.currentMode (steps.take k),
        (steps.take (k + 1)).map BringUpStep.commandText⟩ k .timeout ∧
    (bringUp chan sess steps).session.sent.length = k + 1 := by
  have hr := runSteps_fails steps chan sess 0 k stk .timeout
    (by intro j hj; obtain ⟨st, h1, h2⟩ := hbef j hj; exact ⟨st, h1, by rwa [Nat.zero_add]⟩)
    hk (by rw [Nat.zero_add, hto]; rfl)
  rw [Nat.zero_add] at hr
  have hkl : k < steps.length := by
    obtain ⟨h, -⟩ := List.getElem?_eq_some.mp hk
    exact h
  constructor
  · rw [bringUp, hr, hsent]
    simp
  · rw [bringUp, hr]
    simp only [BringUpResult.session, List.length_map, List.length_take, hsent,
      List.nil_append]
    omega

/-- Witness for the amended C4 at the step-2-timeout channel. -/
theorem timeout_all_or_nothing_witness :
    (bringUp timeoutAt2Chan initSession onSessionStartSteps =
      .failed ⟨finalMode initSession.currentMode (onSessionStartSteps.take 2),
        (onSessionStartSteps.take 3).map BringUpStep.commandText⟩ 2 .timeout) ∧
    (bringUp timeoutAt2Chan initSession onSessionStartSteps).session.sent.length = 3 :=
  timeout_all_or_nothing onSessionStartSteps timeoutAt2Chan initSession rfl 2
    ⟨"terminal width 300", .modeEnable⟩
    (by intro j hj; interval_cases j <;> exact ⟨_, rfl, by decide⟩) rfl rfl

/-- C5: determinism — two runs of the sequencer over identical channel
response streams send the same commands and end in the same final state,
for every step list and starting session. -/
theorem bringUp_deterministic (steps : List BringUpStep) (chan1 chan2 : Nat → StepResponse)
    (sess : Session) (h : ∀ n, chan1 n = chan2 n) :
    bringUp chan1 sess steps = bringUp chan2 sess steps ∧
    (bringUp chan1 sess steps).session.sent = (bringUp chan2 sess steps).session.sent := by
  have hr := runSteps_congr steps chan1 chan2 h sess 0
  exact ⟨hr, by rw [bringUp, bringUp, hr]⟩

/-- Witness for C5: replaying the echo stream against itself. -/
theorem bringUp_deterministic_witness :
    bringUp echoChan initSession onSessionStartSteps =
      bringUp echoChan initSession onSessionStartSteps ∧
    (bringUp echoChan initSession onSessionStartSteps).session.sent =
      (bringUp echoChan initSession onSessionStartSteps).session.sent :=
  bringUp_deterministic onSessionStartSteps echoChan echoChan initSession (fun _ => rfl)

/-- C7: a caller cancellation delivered while the sequencer is blocked on
step i's read fails the bring-up with reason cancelled and stepIndex i,
and the cancelled reason is distinguishable from timeout. -/
theorem cancellation_mid_sequence (steps : List BringUpStep) (chan : Nat → StepResponse)
    (sess : Session) (i : Nat) (stk : BringUpStep)
    (hbef : ∀ j, j < i → ∃ st, steps[j]? = some st ∧ stepOk chan st j = true)
    (hk : steps[i]? = some stk) (hcanc : chan i = .cancelled) :
    (∃ s, bringUp chan sess steps = .failed s i .cancelled) ∧
    FailReason.cancelled ≠ FailReason.timeout := by
  have hr := runSteps_fails steps chan sess 0 i stk .cancelled
    (by intro j hj; obtain ⟨st, h1, h2⟩ := hbef j hj; exact ⟨st, h1, by rwa [Nat.zero_add]⟩)
    hk (by rw [Nat.zero_add, hcanc]; rfl)
  rw [Nat.zero_add] at hr
  exact ⟨⟨_, hr⟩, by decide⟩

/-- Witness for C7: cancellation while blocked on step index 1. -/
theorem cancellation_mid_sequence_witness :
    (∃ s, bringUp cancelAt1Chan initSession onSessionStartSteps = .failed s 1 .cancelled) ∧
    FailReason.cancelled ≠ FailReason.timeout :=
  cancellation_mid_sequence onSessionStartSteps cancelAt1Chan initSession 1
    ⟨"terminal length 0", .modeEnable⟩
    (by intro j hj; interval_cases j <;> exact ⟨_, rfl, by decide⟩) rfl rfl

/-- C8: `matches(output, mode)` is pure — the call leaves the session
untouched, repeating it returns the same result, and the result does not
depend on any session state. -/
theorem matches_pure (sess sess2 : Session) (output : String) (mode : CommandMode) :
    (matchesCall sess output mode).2 = sess ∧
    (matchesCall ((matchesCall sess output mode).2) output mode).1 =
      (matchesCall sess output mode).1 ∧
    (matchesCall sess output mode).1 = (matchesCall sess2 output mode).1 :=
  ⟨rfl, rfl, rfl⟩

/-- C2: whenever the five steps preceding it succeed, the "commit"
command is sent — exactly once, immediately after "no logging console",
with the config-mode prompt as the expected pattern — for every channel
behaviour: no response to the commit step or the exit step removes it
from the sent log. -/
theorem commit_unconditional (chan : Nat → StepResponse) (sess : Session)
    (hsent : sess.sent = [])
    (hbef : ∀ j, j < 5 → ∃ st, onSessionStartSteps[j]? = some st ∧ stepOk chan st j = true) :
    (bringUp chan sess onSessionStartSteps).session.sent.count "commit" = 1 ∧
    (bringUp chan sess onSessionStartSteps).session.sent[5]? = some "commit" ∧
    (bringUp chan sess onSessionStartSteps).session.sent[4]? = some "no logging console" ∧
    (onSessionStartSteps[5]?).map BringUpStep.expectedMode = some .modeConfig := by
  have hbef0 : ∀ j, j < 5 →
      ∃ st, onSessionStartSteps[j]? = some st ∧ stepOk chan st (0 + j) = true := by
    intro j hj
    obtain ⟨st, h1, h2⟩ := hbef j hj
    exact ⟨st, h1, by rwa [Nat.zero_add]⟩
  have key : (bringUp chan sess onSessionStartSteps).session.sent =
      ["enter-enable", "terminal length 0", "terminal width 300", "enter-config",
       "no logging console", "commit"] ∨
      (bringUp chan sess onSessionStartSteps).session.sent =
      ["enter-enable", "terminal length 0", "terminal width 300", "enter-config",
       "no logging console", "commit", "exit"] := by
    cases h5 : stepOk chan ⟨"commit", .modeConfig⟩ 5 with
    | false =>
      obtain ⟨r, hr5⟩ := stepOk_false chan ⟨"commit", .modeConfig⟩ 5 h5
      left
      have hr := runSteps_fails onSessionStartSteps chan sess 0 5 ⟨"commit", .modeConfig⟩ r
        hbef0 rfl (by rwa [Nat.zero_add])
      rw [bringUp, hr, hsent]
      rfl
    | true =>
      have hbef6 : ∀ j, j < 6 →
          ∃ st, onSessionStartSteps[j]? = some st ∧ stepOk chan st (0 + j) = true := by
        intro j hj
        rcases Nat.lt_or_ge j 5 with hj5 | hj5
        · exact hbef0 j hj5
        · have hj5' : j = 5 := by omega
          subst hj5'
          exact ⟨_, rfl, by simpa using h5⟩
      cases h6 : stepOk chan ⟨"exit", .modeEnable⟩ 6 with
      | false =>
        obtain ⟨r, hr6⟩ := stepOk_false chan ⟨"exit", .modeEnable⟩ 6 h6
        right
        have hr := runSteps_fails onSessionStartSteps chan sess 0 6 ⟨"exit", .modeEnable⟩ r
          hbef6 rfl (by rwa [Nat.zero_add])
        rw [bringUp, hr, hsent]
        rfl
      | true =>
        right
        have hall : ∀ j, j < onSessionStartSteps.length →
            ∃ st, onSessionStartSteps[j]? = some st ∧ stepOk chan st (0 + j) = true := by
          intro j hj
          have hj7 : j < 7 := by simpa [onSessionStartSteps] using hj
          rcases Nat.lt_or_ge j 6 with hj6 | hj6
          · exact hbef6 j hj6
          · have hj6' : j = 6 := by omega
            subst hj6'
            exact ⟨_, rfl, by simpa using h6⟩
        have hr := runSteps_all_ok onSessionStartSteps chan sess 0 hall
        rw [bringUp, hr, hsent]
        rfl
  rcases key with hk | hk <;> rw [hk] <;> exact ⟨by decide, by decide, by decide, by decide⟩

/-- Witness for C2 at the echoing channel: every step of the prefix
succeeds and the sent log carries "commit" once, at position 5. -/
theorem commit_unconditional_witness :
    (bringUp echoChan initSession onSessionStartSteps).session.sent.count "commit" = 1 ∧
    (bringUp echoChan initSession onSessionStartSteps).session.sent[5]? = some "commit" ∧
    (bringUp echoChan initSession onSessionStartSteps).session.sent[4]? =
      some "no logging console" ∧
    (onSessionStartSteps[5]?).map BringUpStep.expectedMode = some .modeConfig :=
  commit_unconditional echoChan initSession rfl
    (by intro j hj; interval_cases j <;> exact ⟨_, rfl, by decide⟩)

/-! ### Claim theorems: the driver -/

open CiscoIOSXRResourceDriver

/-- C6: `save` and `restore` substitute `"running"` for an absent (None)
or empty `configuration_type` before delegating to the configuration
flow, and forward any non-empty `configuration_type` unchanged. -/
theorem configuration_type_default (st : DriverState) (c : CiscoIOSXRCli)
    (hc : st._cli = some c) (rc : NetworkingResourceConfig)
    (folder_path path : String) (configuration_type restore_method vrf : Option String) :
    ((configuration_type = none ∨ configuration_type = some "") →
      (∃ call, save st rc folder_path configuration_type vrf = .ok (st, call) ∧
        call.configuration_type = "running") ∧
      (∃ call, restore st rc path configuration_type restore_method vrf = .ok (st, call) ∧
        call.configuration_type = "running")) ∧
    (∀ s, configuration_type = some s → s ≠ "" →
      (∃ call, save st rc folder_path configuration_type vrf = .ok (st, call) ∧
        call.configuration_type = s) ∧
      (∃ call, restore st rc path configuration_type restore_method vrf = .ok (st, call) ∧
        call.configuration_type = s)) := by
  constructor
  · rintro (rfl | rfl)
    · exact ⟨⟨⟨folder_path, "running", pyOr vrf rc.vrf_management_name⟩,
        by simp [save, hc, pyOr], rfl⟩,
        ⟨⟨path, pyOr restore_method "override", "running", pyOr vrf rc.vrf_management_name⟩,
        by simp [restore, hc, pyOr], rfl⟩⟩
    · exact ⟨⟨⟨folder_path, "running", pyOr vrf rc.vrf_management_name⟩,
        by simp [save, hc, pyOr], rfl⟩,
        ⟨⟨path, pyOr restore_method "override", "running", pyOr vrf rc.vrf_management_name⟩,
        by simp [restore, hc, pyOr], rfl⟩⟩
  · rintro s rfl hs
    exact ⟨⟨⟨folder_path, s, pyOr vrf rc.vrf_management_name⟩,
      by simp [save, hc, pyOr, hs], rfl⟩,
      ⟨⟨path, pyOr restore_method "override", s, pyOr vrf rc.vrf_management_name⟩,
      by simp [restore, hc, pyOr, hs], rfl⟩⟩

/-- Witness for C6: an initialized driver saving with no configuration
type gets "running". -/
theorem configuration_type_default_witness :
    (∃ call, save ⟨some ⟨⟨"mgmt"⟩⟩⟩ ⟨"mgmt"⟩ "folder" none (some "vrf1") =
      .ok (⟨some ⟨⟨"mgmt"⟩⟩⟩, call) ∧ call.configuration_type = "running") ∧
    (∃ call, restore ⟨some ⟨⟨"mgmt"⟩⟩⟩ ⟨"mgmt"⟩ "path" none (some "append") (some "vrf1") =
      .ok (⟨some ⟨⟨"mgmt"⟩⟩⟩, call) ∧ call.configuration_type = "running") :=
  (configuration_type_default ⟨some ⟨⟨"mgmt"⟩⟩⟩ ⟨⟨"mgmt"⟩⟩ rfl ⟨"mgmt"⟩ "folder" "path"
    none (some "append") (some "vrf1")).1 (Or.inl rfl)

/-- C10: the driver substitutes fixed defaults for every falsy optional
argument before delegating — `restore` turns a falsy `restore_method`
into "override", `orchestration_save` turns a falsy `mode` into
"shallow", and `save`, `restore` and `load_firmware` turn a falsy
`vrf_management_name` into the resource-config default — while non-empty
values pass through unchanged. -/
theorem falsy_defaults (st : DriverState) (c : CiscoIOSXRCli) (hc : st._cli = some c)
    (rc : NetworkingResourceConfig) (folder_path path fw_path features cp : String)
    (ct rm vrf mode : Option String) :
    ((rm = none ∨ rm = some "") →
      ∃ call, restore st rc path ct rm vrf = .ok (st, call) ∧
        call.restore_method = "override") ∧
    (∀ s, rm = some s → s ≠ "" →
      ∃ call, restore st rc path ct rm vrf = .ok (st, call) ∧ call.restore_method = s) ∧
    ((mode = none ∨ mode = some "") →
      ∃ call, orchestration_save st rc mode cp = .ok (st, call) ∧ call.mode = "shallow") ∧
    (∀ s, mode = some s → s ≠ "" →
      ∃ call, orchestration_save st rc mode cp = .ok (st, call) ∧ call.mode = s) ∧
    ((vrf = none ∨ vrf = some "") →
      (∃ call, save st rc folder_path ct vrf = .ok (st, call) ∧
        call.vrf_management_name = rc.vrf_management_name) ∧
      (∃ call, restore st rc path ct rm vrf = .ok (st, call) ∧
        call.vrf_management_name = rc.vrf_management_name) ∧
      (∃ call, load_firmware st rc fw_path features vrf = .ok (st, call) ∧
        call.vrf_management_name = rc.vrf_management_name)) ∧
    (∀ s, vrf = some s → s ≠ "" →
      (∃ call, save st rc folder_path ct vrf = .ok (st, call) ∧
        call.vrf_management_name = s) ∧
      (∃ call, restore st rc path ct rm vrf = .ok (st, call) ∧
        call.vrf_management_name = s) ∧
      (∃ call, load_firmware st rc fw_path features vrf = .ok (st, call) ∧
        call.vrf_management_name = s)) := by
  refine ⟨?_, ?_, ?_, ?_, ?_, ?_⟩
  · rintro (rfl | rfl) <;>
      exact ⟨⟨path, "override", pyOr ct "running", pyOr vrf rc.vrf_management_name⟩,
        by simp [restore, hc, pyOr], rfl⟩
  · rintro s rfl hs
    exact ⟨⟨path, s, pyOr ct "running", pyOr vrf rc.vrf_management_name⟩,
      by simp [restore, hc, pyOr, hs], rfl⟩
  · rintro (rfl | rfl) <;>
      exact ⟨⟨"shallow", cp⟩, by simp [orchestration_save, hc, pyOr], rfl⟩
  · rintro s rfl hs
    exact ⟨⟨s, cp⟩, by simp [orchestration_save, hc, pyOr, hs], rfl⟩
  · rintro (rfl | rfl) <;>
      exact ⟨⟨⟨folder_path, pyOr ct "running", rc.vrf_management_name⟩,
        by simp [save, hc, pyOr], rfl⟩,
        ⟨⟨path, pyOr rm "override", pyOr ct "running", rc.vrf_management_name⟩,
        by simp [restore, hc, pyOr], rfl⟩,
        ⟨⟨fw_path, features, rc.vrf_management_name⟩,
        by simp [load_firmware, hc, pyOr], rfl⟩⟩
  · rintro s rfl hs
    exact ⟨⟨⟨folder_path, pyOr ct "running", s⟩,
      by simp [save, hc, pyOr, hs], rfl⟩,
      ⟨⟨path, pyOr rm "override", pyOr ct "running", s⟩,
      by simp [restore, hc, pyOr, hs], rfl⟩,
      ⟨⟨fw_path, features, s⟩,
      by simp [load_firmware, hc, pyOr, hs], rfl⟩⟩

/-- Witness for C10: an initialized driver restoring with falsy
restore_method, mode and vrf gets the fixed defaults. -/
theorem falsy_defaults_witness :
    (∃ call, restore ⟨some ⟨⟨"mgmt"⟩⟩⟩ ⟨"mgmt"⟩ "path" (some "startup") none none =
      .ok (⟨some ⟨⟨"mgmt"⟩⟩⟩, call) ∧ call.restore_method = "override") ∧
    (∃ call, orchestration_save ⟨some ⟨⟨"mgmt"⟩⟩⟩ ⟨"mgmt"⟩ none "{}" =
      .ok (⟨some ⟨⟨"mgmt"⟩⟩⟩, call) ∧ call.mode = "shallow") :=
  ⟨(falsy_defaults ⟨some ⟨⟨"mgmt"⟩⟩⟩ ⟨⟨"mgmt"⟩⟩ rfl ⟨"mgmt"⟩ "folder" "path" "fw" "ft" "{}"
      (some "startup") none none none).1 (Or.inl rfl),
   (falsy_defaults ⟨some ⟨⟨"mgmt"⟩⟩⟩ ⟨⟨"mgmt"⟩⟩ rfl ⟨"mgmt"⟩ "folder" "path" "fw" "ft" "{}"
      (some "startup") none none none).2.2.1 (Or.inl rfl)⟩

/-- C9: while `_cli` is still None (before initialize), every CLI-using
command method fails dereferencing it, producing no delegated call;
initialize stores the CLI object built from the resource config; and
once `_cli` is set, every command method succeeds with the driver state
— and hence `_cli` — unchanged. -/
theorem cli_lifecycle (st : DriverState) (rc : NetworkingResourceConfig)
    (cmd cfgcmd req folder_path path sai cp fw_path features : String)
    (ct rm vrf mode : Option String) :
    (st._cli = none →
      get_inventory st rc = .error .attributeErrorNoneType ∧
      run_custom_command st rc cmd = .error .attributeErrorNoneType ∧
      run_custom_config_command st rc cfgcmd = .error .attributeErrorNoneType ∧
      ApplyConnectivityChanges st rc req = .error .attributeErrorNoneType ∧
      save st rc folder_path ct vrf = .error .attributeErrorNoneType ∧
      restore st rc path ct rm vrf = .error .attributeErrorNoneType ∧
      orchestration_save st rc mode cp = .error .attributeErrorNoneType ∧
      orchestration_restore st rc sai cp = .error .attributeErrorNoneType ∧
      load_firmware st rc fw_path features vrf = .error .attributeErrorNoneType ∧
      health_check st rc = .error .attributeErrorNoneType ∧
      shutdown st rc = .error .attributeErrorNoneType) ∧
    ((initializeCmd st rc).1._cli = some ⟨rc⟩) ∧
    (st._cli ≠ none →
      (∃ out, get_inventory st rc = .ok (st, out)) ∧
      (∃ out, run_custom_command st rc cmd = .ok (st, out)) ∧
      (∃ out, run_custom_config_command st rc cfgcmd = .ok (st, out)) ∧
      (∃ out, ApplyConnectivityChanges st rc req = .ok (st, out)) ∧
      (∃ out, save st rc folder_path ct vrf = .ok (st, out)) ∧
      (∃ out, restore st rc path ct rm vrf = .ok (st, out)) ∧
      (∃ out, orchestration_save st rc mode cp = .ok (st, out)) ∧
      (∃ out, orchestration_restore st rc sai cp = .ok (st, out)) ∧
      (∃ out, load_firmware st rc fw_path features vrf = .ok (st, out)) ∧
      (∃ out, health_check st rc = .ok (st, out)) ∧
      (∃ out, shutdown st rc = .ok (st, out))) := by
  refine ⟨?_, rfl, ?_⟩
  · intro h
    exact ⟨by simp [get_inventory, h], by simp [run_custom_command, h],
      by simp [run_custom_config_command, h], by simp [ApplyConnectivityChanges, h],
      by simp [save, h], by simp [restore, h], by simp [orchestration_save, h],
      by simp [orchestration_restore, h], by simp [load_firmware, h],
      by simp [health_check, h], by simp [shutdown, h]⟩
  · intro h
    obtain ⟨o⟩ := st
    rcases o with - | c
    · exact absurd rfl h
    · exact ⟨⟨_, rfl⟩, ⟨_, rfl⟩, ⟨_, rfl⟩, ⟨_, rfl⟩, ⟨_, rfl⟩, ⟨_, rfl⟩, ⟨_, rfl⟩,
        ⟨_, rfl⟩, ⟨_, rfl⟩, ⟨_, rfl⟩, ⟨_, rfl⟩⟩

/-- Witness for C9: a fresh (uninitialized) driver fails get_inventory,
and initialize sets `_cli`. -/
theorem cli_lifecycle_witness :
    get_inventory ⟨none⟩ ⟨"mgmt"⟩ = .error .attributeErrorNoneType ∧
    (initializeCmd ⟨none⟩ ⟨"mgmt"⟩).1._cli = some ⟨⟨"mgmt"⟩⟩ :=
  ⟨((cli_lifecycle ⟨none⟩ ⟨"mgmt"⟩ "c" "cc" "req" "folder" "path" "sai" "cp" "fw" "ft"
      none none none none).1 rfl).1,
   (cli_lifecycle ⟨none⟩ ⟨"mgmt"⟩ "c" "cc" "req" "folder" "path" "sai" "cp" "fw" "ft"
      none none none none).2.1⟩
